import Mathlib

/-!
Shallow embedding of `app.py` (AI-Powered Resume Analyzer), for checking the
natural-language specification against the code.

Modelling conventions:
* Python strings are `List Char` (abbreviated `Str`), so that slicing,
  stripping and regex-like searching can be reasoned about structurally.
* The Gemini network call is the external boundary: a call outcome is an
  `Option Str` (`none` models "the call raised an exception", which
  `get_gemini_response` catches and turns into the empty string; `some t`
  models a call that returned text `t`).
* `json.loads` is modelled by an executable recursive-descent parser
  `jsonLoads` over a JSON value type `JValue`.  The model is conservative:
  it covers the JSON fragment the program's claims exercise (null, booleans,
  integer numbers, strings with the common escapes, arrays, objects) and
  fails on the rest; theorems about the program are stated conditionally on
  the parse outcome, so this conservativity never strengthens a claim.
* Python exceptions that escape a function are modelled with `Except`;
  numeric pandas values are modelled as rationals.
-/

namespace ResumeAnalyzer

abbrev Str := List Char

/-- Characters removed by Python's `str.strip()` with no arguments. -/
def isSpaceChar (c : Char) : Bool :=
  c = ' ' || c = '\t' || c = '\n' || c = '\r' || c = '\x0b' || c = '\x0c'

/-- Model of Python `s.strip()`: drop whitespace from both ends. -/
def pyStrip (s : Str) : Str :=
  ((s.dropWhile isSpaceChar).reverse.dropWhile isSpaceChar).reverse

/-- Model of Python `s.startswith(pat)`: `begins pat s` is true iff `pat`
is a prefix of `s`. -/
def begins : Str → Str → Bool
  | [], _ => true
  | _ :: _, [] => false
  | p :: ps, c :: cs => p == c && begins ps cs

/-- JSON values, as produced by `json.loads`. -/
inductive JValue where
  | null
  | bool (b : Bool)
  | num (n : Int)
  | str (s : Str)
  | arr (items : List JValue)
  | obj (fields : List (Str × JValue))

/-- Python dict update `d[k] = v`: replace the value at the first occurrence
of `k`, or append a new binding at the end (insertion order preserved). -/
def dictSet : List (Str × JValue) → Str → JValue → List (Str × JValue)
  | [], k, v => [(k, v)]
  | (k', v') :: rest, k, v =>
    if k' = k then (k, v) :: rest else (k', v') :: dictSet rest k v

/-- Python dict lookup: value at key `f`, if present. -/
def dlookup : List (Str × JValue) → Str → Option JValue
  | [], _ => none
  | (k, v) :: rest, f => if k = f then some v else dlookup rest f

/-- JSON insignificant whitespace. -/
def isJsonWs (c : Char) : Bool :=
  c = ' ' || c = '\t' || c = '\n' || c = '\r'

def skipWs (s : Str) : Str := s.dropWhile isJsonWs

/-- JSON string escapes handled by the model (`\uXXXX` is not modelled; an
input using it makes the model parser fail, conservatively). -/
def escChar (c : Char) : Option Char :=
  if c = '"' then some '"'
  else if c = '\\' then some '\\'
  else if c = '/' then some '/'
  else if c = 'n' then some '\n'
  else if c = 't' then some '\t'
  else if c = 'r' then some '\r'
  else none

/-- Body of a JSON string literal, after the opening quote. -/
def parseStrBody : Nat → Str → Except String (Str × Str)
  | 0, _ => .error "recursion limit"
  | fuel + 1, s =>
    match s with
    | [] => .error "Unterminated string"
    | '"' :: rest => .ok ([], rest)
    | '\\' :: rest =>
      match rest with
      | [] => .error "Unterminated string"
      | e :: rest2 =>
        match escChar e with
        | none => .error "Invalid escape"
        | some c =>
          match parseStrBody fuel rest2 with
          | .ok (tail, r) => .ok (c :: tail, r)
          | .error e2 => .error e2
    | c :: rest =>
      match parseStrBody fuel rest with
      | .ok (tail, r) => .ok (c :: tail, r)
      | .error e2 => .error e2

def natOfDigits (ds : Str) : Nat :=
  ds.foldl (fun a c => a * 10 + (c.toNat - 48)) 0

/-- JSON number token (integers only; a fractional or exponent part makes
the surrounding parse fail, conservatively). -/
def parseNumTok (s : Str) : Except String (JValue × Str) :=
  match s with
  | '-' :: r =>
    match r.takeWhile Char.isDigit with
    | [] => .error "Expecting value"
    | ds => .ok (.num (-(natOfDigits ds : Int)), r.dropWhile Char.isDigit)
  | _ =>
    match s.takeWhile Char.isDigit with
    | [] => .error "Expecting value"
    | ds => .ok (.num (natOfDigits ds), s.dropWhile Char.isDigit)

mutual

/-- One JSON value, with leading whitespace allowed; returns the rest of
the input. -/
def parseVal : Nat → Str → Except String (JValue × Str)
  | 0, _ => .error "recursion limit"
  | fuel + 1, s =>
    match skipWs s with
    | [] => .error "Expecting value"
    | c :: rest =>
      if begins "null".data (c :: rest) then .ok (.null, (c :: rest).drop 4)
      else if begins "true".data (c :: rest) then .ok (.bool true, (c :: rest).drop 4)
      else if begins "false".data (c :: rest) then .ok (.bool false, (c :: rest).drop 5)
      else if c = '"' then
        match parseStrBody fuel rest with
        | .ok (body, r) => .ok (.str body, r)
        | .error e => .error e
      else if c = '[' then
        match skipWs rest with
        | ']' :: r => .ok (.arr [], r)
        | t =>
          match parseItems fuel t with
          | .ok (vs, r) =>
            match skipWs r with
            | ']' :: r2 => .ok (.arr vs, r2)
            | _ => .error "Expecting delimiter"
          | .error e => .error e
      else if c = '\x7b' then
        match skipWs rest with
        | '\x7d' :: r => .ok (.obj [], r)
        | t =>
          match parseMembers fuel t with
          | .ok (ms, r) =>
            match skipWs r with
            | '\x7d' :: r2 =>
              .ok (.obj (ms.foldl (fun d kv => dictSet d kv.1 kv.2) []), r2)
            | _ => .error "Expecting delimiter"
          | .error e => .error e
      else if c = '-' || c.isDigit then parseNumTok (c :: rest)
      else .error "Expecting value"

/-- Comma-separated JSON values (at least one). -/
def parseItems : Nat → Str → Except String (List JValue × Str)
  | 0, _ => .error "recursion limit"
  | fuel + 1, s =>
    match parseVal fuel s with
    | .error e => .error e
    | .ok (v, r) =>
      match skipWs r with
      | ',' :: r2 =>
        match parseItems fuel r2 with
        | .ok (vs, r3) => .ok (v :: vs, r3)
        | .error e => .error e
      | _ => .ok ([v], r)

/-- Comma-separated JSON object members (at least one). -/
def parseMembers : Nat → Str → Except String (List (Str × JValue) × Str)
  | 0, _ => .error "recursion limit"
  | fuel + 1, s =>
    match skipWs s with
    | '"' :: r =>
      match parseStrBody fuel r with
      | .error e => .error e
      | .ok (k, r2) =>
        match skipWs r2 with
        | ':' :: r3 =>
          match parseVal fuel r3 with
          | .error e => .error e
          | .ok (v, r4) =>
            match skipWs r4 with
            | ',' :: r5 =>
              match parseMembers fuel r5 with
              | .ok (ms, r6) => .ok ((k, v) :: ms, r6)
              | .error e => .error e
            | _ => .ok ([(k, v)], r4)
        | _ => .error "Expecting colon"
    | _ => .error "Expecting property name"

end

/-- Model of `json.loads`: parse one JSON value and require only whitespace
after it. -/
def jsonLoads (s : Str) : Except String JValue :=
  match parseVal (2 * s.length + 2) s with
  | .error e => .error e
  | .ok (v, rest) =>
    if (skipWs rest).isEmpty then .ok v else .error "Extra data"

/-! ### get_gemini_response and the shared response post-processing -/

/-- Embedding of `get_gemini_response` (app.py lines 78-88): the model call
either returns text (`some t`) or raises; any exception is caught, reported
via `st.error`, and the function returns the empty string. -/
def get_gemini_response (callResult : Option Str) : Str :=
  match callResult with
  | some t => t
  | none => []

def fenceLit : Str := "```json".data

/-- Embedding of the fence-stripping step shared by `parse_resume`
(lines 119-120) and `analyze_resume` (lines 164-165): if the stripped
response starts with a ```json marker, take the Python slice
`response[7:-3]`.  Natural subtraction makes the slice empty when the stop
index precedes the start, exactly as in Python. -/
def stripFenced (r : Str) : Str :=
  if begins fenceLit r then (r.drop 7).take (r.length - 10) else r

/-- Embedding of `response = get_gemini_response(...)` followed by
`response.strip()` and the fence stripping (lines 117-120 / 162-165). -/
def modelResponse (callResult : Option Str) : Str :=
  stripFenced (pyStrip (get_gemini_response callResult))

/-! ### parse_resume -/

/-- The twelve keys required of a parsed resume record (app.py lines
125-129). -/
def requiredFields : List Str :=
  ["Name".data, "Phone".data, "Email".data, "University".data,
   "YearOfStudy".data, "Course".data, "Discipline".data, "CGPA".data,
   "KeySkills".data, "GenAIExperienceScore".data, "AIMLExperienceScore".data,
   "SupportingInformation".data]

/-- The default sentinel value "Not specified". -/
def sentinel : JValue := .str "Not specified".data

/-- Python truthiness of a JSON value (`not parsed_data[field]`). -/
def pyTruthy : JValue → Bool
  | .null => false
  | .bool b => b
  | .num n => n != 0
  | .str s => !s.isEmpty
  | .arr items => !items.isEmpty
  | .obj kvs => !kvs.isEmpty

/-- One iteration of the back-fill loop (app.py lines 131-133):
`if field not in parsed_data or not parsed_data[field]:
parsed_data[field] = "Not specified"`. -/
def fillStep (d : List (Str × JValue)) (f : Str) : List (Str × JValue) :=
  match dlookup d f with
  | none => dictSet d f sentinel
  | some v => if pyTruthy v then d else dictSet d f sentinel

/-- Python exceptions that escape the embedded functions. -/
inductive PyErr where
  | unboundLocalError (name : Str)
  | typeError
deriving DecidableEq

/-- Embedding of `parse_resume` (app.py lines 90-139).

Two branches deserve comment, both read off the source:
* When `json.loads` raises `JSONDecodeError`, the handler at line 139
  evaluates the local `required_fields` — but that local is assigned only at
  line 125, inside the `try`, *after* `json.loads` at line 122.  On the
  exception path the name is therefore unbound and the dict comprehension
  raises `UnboundLocalError` instead of returning the default record.
* When `json.loads` succeeds but yields a non-dict (a JSON array, string,
  number, boolean or null), the validation loop raises an uncaught
  `TypeError`: membership `field not in parsed_data` on a number/boolean/
  null is a `TypeError` immediately, and on a string or list either the
  read `parsed_data[field]` or the assignment `parsed_data[field] = ...`
  is a `TypeError` (string/list indices cannot be strings). -/
def parse_resume (modelCall : Option Str) : Except PyErr (List (Str × JValue)) :=
  match jsonLoads (modelResponse modelCall) with
  | .error _ => .error (.unboundLocalError "required_fields".data)
  | .ok (JValue.obj kvs) => .ok (requiredFields.foldl fillStep kvs)
  | .ok _ => .error .typeError

/-- The record the exception handler at line 139 of `parse_resume` was
written to return: every required field mapped to the sentinel. -/
def allSentinelRecord : List (Str × JValue) :=
  requiredFields.map (fun f => (f, sentinel))

/-! ### analyze_resume -/

/-- The fallback match report returned by `analyze_resume` on a JSON parse
failure (app.py lines 168-175), verbatim from the source. -/
def matchFallback : List (Str × JValue) :=
  [("match_percentage".data, .num 0),
   ("matching_keywords".data, .arr []),
   ("missing_keywords".data, .arr []),
   ("profile_summary".data, .str "Error analyzing profile".data),
   ("recommendations".data, .arr [.str "Error generating recommendations".data])]

/-- Embedding of `analyze_resume` (app.py lines 141-175): same model call,
same strip and fence handling, then `return json.loads(response)` — the
parsed value is passed through unvalidated; on `JSONDecodeError` the
fallback dict is returned. -/
def analyze_resume (modelCall : Option Str) : JValue :=
  match jsonLoads (modelResponse modelCall) with
  | .ok v => v
  | .error _ => JValue.obj matchFallback

/-! ### read_pdf -/

/-- Embedding of `read_pdf` (app.py lines 177-187).  The PyPDF2 boundary is
modelled as `Except String (List Str)`: a fatal `PdfReader` failure is the
`error` case (caught, reported, empty string returned); otherwise the pages
are the per-page `extract_text()` results in page order — an unextractable
page yields the empty string.  The loop is `text = ""` followed by
`text += str(page.extract_text())` per page. -/
def read_pdf (document : Except String (List Str)) : Str :=
  match document with
  | .ok pages => pages.foldl (fun acc p => acc ++ p) []
  | .error _ => []

/-! ### Drive link parsing (extract_folder_id and the file-link loop) -/

/-- Characters of the regex class `[a-zA-Z0-9-_]`. -/
def idChar (c : Char) : Bool :=
  c.isAlpha || c.isDigit || c = '-' || c = '_'

/-- Match attempt of the pattern `lit([a-zA-Z0-9-_]+)` at the start of `s`:
the literal must be a prefix and at least one id character must follow; the
captured group is the maximal id-character run (greedy `+`). -/
def matchAt (lit s : Str) : Option Str :=
  if begins lit s then
    match s.drop lit.length with
    | c :: rest => if idChar c then some ((c :: rest).takeWhile idChar) else none
    | [] => none
  else none

/-- Model of `re.search` for patterns of the shape `lit([a-zA-Z0-9-_]+)`:
the group captured at the leftmost position where the whole pattern
matches, or `none`. -/
def searchGroup (lit : Str) : Str → Option Str
  | [] => none
  | c :: cs =>
    match matchAt lit (c :: cs) with
    | some g => some g
    | none => searchGroup lit cs

/-- Containment of a `lit` + id-character segment: the statement-level
reading of "the string contains the `lit<id>` segment", used to
characterise when the searches above can match at all. -/
def hasIdSegment (lit s : Str) : Prop :=
  ∃ pre c rest, s = pre ++ (lit ++ c :: rest) ∧ idChar c = true

def folderPat : Str := "drive/folders/".data

/-- Embedding of `extract_folder_id` (app.py lines 37-45):
`re.search(r"drive/folders/([a-zA-Z0-9-_]+)", folder_link)`, group 1 on a
match, `""` otherwise. -/
def extract_folder_id (folder_link : Str) : Str :=
  match searchGroup folderPat folder_link with
  | some g => g
  | none => []

/-- Outcome of the folder-link branch of `main` (app.py lines 313-324). -/
inductive FolderStep where
  | warnMissingLink
  | warnUnparseable
  | proceed (folderId : Str)
deriving DecidableEq

/-- Embedding of the folder-link branch of `main` (app.py lines 313-324):
an empty stripped link warns and returns; an unparseable link warns and
returns; only the `proceed` outcome goes on to `get_drive_service()` and
the Drive listing — both warning paths halt before any remote call. -/
def folderBranch (folder_link : Str) : FolderStep :=
  if (pyStrip folder_link).isEmpty then .warnMissingLink
  else if (extract_folder_id (pyStrip folder_link)).isEmpty then .warnUnparseable
  else .proceed (extract_folder_id (pyStrip folder_link))

/-- The ordered file-link patterns of `main` (app.py lines 294-298):
`file/d/(...)`, `id=(...)`, `open?id=(...)`. -/
def filePats : List Str :=
  ["file/d/".data, "id=".data, "open?id=".data]

/-- Embedding of the pattern loop at app.py lines 299-303: `file_id` starts
empty and the loop breaks at the first pattern whose search matches. -/
def firstPatMatch : List Str → Str → Str
  | [], _ => []
  | p :: ps, link =>
    match searchGroup p link with
    | some g => g
    | none => firstPatMatch ps link

/-- Per-link outcome of the file-links loop (app.py lines 290-311). -/
inductive LinkStep where
  | skipped
  | download (fileId : Str)
deriving DecidableEq

/-- Embedding of one iteration of the file-links loop (app.py lines
290-311): strip the line, run the ordered patterns, and only a non-empty
`file_id` leads to a download attempt (`if file_id:`); otherwise the line
is passed over with no download and no error message. -/
def linkAction (link : Str) : LinkStep :=
  if (firstPatMatch filePats (pyStrip link)).isEmpty then .skipped
  else .download (firstPatMatch filePats (pyStrip link))

/-! ### Summary metrics (main, app.py lines 370-386) -/

/-- One row's `JDMatchPercentage` cell, as pandas sees it when the result
table is built: the key may be absent from the row dict (pandas fills NaN),
or hold a value that `pd.to_numeric(..., errors="coerce")` either converts
to a number or coerces to NaN.  Numeric values are modelled as rationals. -/
inductive MatchCell where
  | absent
  | numeric (q : ℚ)
  | nonNumeric
deriving DecidableEq

/-- Whether the row dict has the `JDMatchPercentage` key at all
(`"JDMatchPercentage" in df.columns` holds iff some row has the key). -/
def cellKeyPresent : MatchCell → Bool
  | .absent => false
  | _ => true

/-- The cell after `pd.to_numeric(..., errors="coerce")`: `none` is NaN. -/
def coerceCell : MatchCell → Option ℚ
  | .numeric q => some q
  | _ => none

/-- Model of pandas `Series.mean()` with default NaN skipping: `none` when
every entry is NaN (the mean itself is NaN). -/
def colMean (col : List (Option ℚ)) : Option ℚ :=
  if (col.filterMap id).isEmpty then none
  else some ((col.filterMap id).sum / ((col.filterMap id).length : ℚ))

/-- Model of pandas `Series.max()` with default NaN skipping: `none` when
every entry is NaN. -/
def colMax (col : List (Option ℚ)) : Option ℚ :=
  match col.filterMap id with
  | [] => none
  | x :: xs => some (xs.foldl max x)

/-- The three displayed metrics. -/
structure Metrics where
  totalResumes : Nat
  avgMatch : ℚ
  highMatch : ℚ
deriving DecidableEq

/-- Embedding of the summary-metrics block of `main` (app.py lines
370-386): shown only when `len(results) > 1`; the match column is coerced
with `pd.to_numeric(errors="coerce")`, averaged and maximised with NaN
skipping, and a NaN mean or max is replaced by 0 (`pd.isna` checks); when
no row has the key the column is missing from the DataFrame and both
metrics are set to 0 directly. -/
def summaryMetrics (rows : List MatchCell) : Option Metrics :=
  if rows.length > 1 then
    if rows.any cellKeyPresent then
      some (Metrics.mk rows.length
        ((colMean (rows.map coerceCell)).getD 0)
        ((colMax (rows.map coerceCell)).getD 0))
    else some (Metrics.mk rows.length 0 0)
  else none

/-- The claim's wording of the mean: coerce non-numeric or missing entries
to not-a-number and exclude them; the mean is 0 when every entry is
excluded. -/
def claimMean (rows : List MatchCell) : ℚ :=
  if ((rows.map coerceCell).filterMap id).isEmpty then 0
  else ((rows.map coerceCell).filterMap id).sum /
    (((rows.map coerceCell).filterMap id).length : ℚ)

/-- The claim's wording of the maximum, under the same coercion and the
same default-to-0 rule. -/
def claimMax (rows : List MatchCell) : ℚ :=
  match (rows.map coerceCell).filterMap id with
  | [] => 0
  | x :: xs => xs.foldl max x

/-! ### Merging match fields into a result row (main, app.py lines 349-358) -/

/-- Python `analysis.get(key, default)`. -/
def pyGet (d : List (Str × JValue)) (k : Str) (dflt : JValue) : JValue :=
  (dlookup d k).getD dflt

/-- The elements of a JSON array as strings; a non-string element makes
`str.flatten` raise `TypeError`. -/
def strItems : List JValue → Except PyErr (List Str)
  | [] => .ok []
  | .str s :: rest =>
    match strItems rest with
    | .ok r => .ok (s :: r)
    | .error e => .error e
  | _ :: _ => .error .typeError

/-- Python `sep.flatten(parts)`. -/
def joinSep (sep : Str) : List Str → Str
  | [] => []
  | x :: rest => rest.foldl (fun acc y => acc ++ (sep ++ y)) x

/-- Python `sep.flatten(v)` over a JSON value: a list joins its (string)
elements, a string joins its characters, a dict joins its keys, and any
other value raises `TypeError`. -/
def pyJoin (sep : Str) (v : JValue) : Except PyErr Str :=
  match v with
  | .arr items =>
    match strItems items with
    | .ok ss => .ok (joinSep sep ss)
    | .error e => .error e
  | .str s => .ok (joinSep sep (s.map (fun c => [c])))
  | .obj kvs => .ok (joinSep sep (kvs.map (fun kv => kv.1)))
  | _ => .error .typeError

/-- Embedding of the `parsed_data.update({...})` block of `main` (app.py
lines 352-357): the four match fields are computed with `analysis.get`
defaults (`0` for the percentage, `[]` for the three lists, joined with
", " or a newline) and written into the parsed record. -/
def mergeMatchFields (parsed analysis : List (Str × JValue)) :
    Except PyErr (List (Str × JValue)) :=
  match pyJoin ", ".data (pyGet analysis "matching_keywords".data (.arr [])) with
  | .error e => .error e
  | .ok mk =>
    match pyJoin ", ".data (pyGet analysis "missing_keywords".data (.arr [])) with
    | .error e => .error e
    | .ok ms =>
      match pyJoin "\n".data (pyGet analysis "recommendations".data (.arr [])) with
      | .error e => .error e
      | .ok rc =>
        .ok (dictSet (dictSet (dictSet (dictSet parsed
          "JDMatchPercentage".data (pyGet analysis "match_percentage".data (.num 0)))
          "MatchingKeywords".data (.str mk))
          "MissingKeywords".data (.str ms))
          "Recommendations".data (.str rc))

/-! ## Helper lemmas about the dict operations and the back-fill loop -/

theorem dlookup_dictSet_self (d : List (Str × JValue)) (f : Str) (v : JValue) :
    dlookup (dictSet d f v) f = some v := by
  induction d with
  | nil => simp [dictSet, dlookup]
  | cons kv rest ih =>
    obtain ⟨k, w⟩ := kv
    by_cases h : k = f
    · subst h; simp [dictSet, dlookup]
    · simp [dictSet, dlookup, h, ih]

theorem dlookup_dictSet_ne (d : List (Str × JValue)) (f g : Str) (v : JValue)
    (h : f ≠ g) : dlookup (dictSet d f v) g = dlookup d g := by
  induction d with
  | nil => simp [dictSet, dlookup, h]
  | cons kv rest ih =>
    obtain ⟨k, w⟩ := kv
    by_cases hk : k = f
    · subst hk; simp [dictSet, dlookup, h]
    · simp [dictSet, dlookup, hk, ih]

theorem fillStep_of_none (d : List (Str × JValue)) (f : Str)
    (h : dlookup d f = none) : fillStep d f = dictSet d f sentinel := by
  unfold fillStep; rw [h]

theorem fillStep_of_some (d : List (Str × JValue)) (f : Str) (v : JValue)
    (h : dlookup d f = some v) :
    fillStep d f = if pyTruthy v then d else dictSet d f sentinel := by
  unfold fillStep; rw [h]

theorem fillStep_ok_self (d : List (Str × JValue)) (f : Str) :
    ∃ v, dlookup (fillStep d f) f = some v ∧ pyTruthy v = true := by
  cases h : dlookup d f with
  | none =>
    rw [fillStep_of_none d f h]
    exact ⟨sentinel, dlookup_dictSet_self d f sentinel, by decide⟩
  | some v =>
    rw [fillStep_of_some d f v h]
    by_cases hv : pyTruthy v = true
    · rw [if_pos hv]; exact ⟨v, h, hv⟩
    · rw [if_neg hv]; exact ⟨sentinel, dlookup_dictSet_self d f sentinel, by decide⟩

theorem fillStep_keeps_ok (d : List (Str × JValue)) (f g : Str)
    (h : ∃ v, dlookup d g = some v ∧ pyTruthy v = true) :
    ∃ v, dlookup (fillStep d f) g = some v ∧ pyTruthy v = true := by
  by_cases hfg : f = g
  · subst hfg
    obtain ⟨v, hv, ht⟩ := h
    rw [fillStep_of_some d f v hv, if_pos ht]; exact ⟨v, hv, ht⟩
  · cases hd : dlookup d f with
    | none =>
      rw [fillStep_of_none d f hd]
      obtain ⟨v, hv, ht⟩ := h
      exact ⟨v, by rw [dlookup_dictSet_ne _ _ _ _ hfg]; exact hv, ht⟩
    | some w =>
      rw [fillStep_of_some d f w hd]
      by_cases hw : pyTruthy w = true
      · rw [if_pos hw]; exact h
      · rw [if_neg hw]
        obtain ⟨v, hv, ht⟩ := h
        exact ⟨v, by rw [dlookup_dictSet_ne _ _ _ _ hfg]; exact hv, ht⟩

theorem foldl_keeps_ok (fs : List Str) (d : List (Str × JValue)) (g : Str)
    (h : ∃ v, dlookup d g = some v ∧ pyTruthy v = true) :
    ∃ v, dlookup (fs.foldl fillStep d) g = some v ∧ pyTruthy v = true := by
  induction fs generalizing d with
  | nil => exact h
  | cons f fs ih => exact ih _ (fillStep_keeps_ok d f g h)

theorem foldl_ok_of_mem (fs : List Str) (d : List (Str × JValue)) (g : Str)
    (hg : g ∈ fs) :
    ∃ v, dlookup (fs.foldl fillStep d) g = some v ∧ pyTruthy v = true := by
  induction fs generalizing d with
  | nil => cases hg
  | cons f fs ih =>
    rcases List.mem_cons.mp hg with heq | hmem
    · subst heq; exact foldl_keeps_ok fs _ g (fillStep_ok_self d g)
    · exact ih _ hmem

theorem fillStep_keeps_sentinel (d : List (Str × JValue)) (f g : Str)
    (h : dlookup d g = some sentinel) :
    dlookup (fillStep d f) g = some sentinel := by
  by_cases hfg : f = g
  · subst hfg
    rw [fillStep_of_some d f sentinel h,
      if_pos (by decide : pyTruthy sentinel = true)]
    exact h
  · cases hd : dlookup d f with
    | none => rw [fillStep_of_none d f hd, dlookup_dictSet_ne _ _ _ _ hfg]; exact h
    | some w =>
      rw [fillStep_of_some d f w hd]
      by_cases hw : pyTruthy w = true
      · rw [if_pos hw]; exact h
      · rw [if_neg hw, dlookup_dictSet_ne _ _ _ _ hfg]; exact h

theorem foldl_keeps_sentinel (fs : List Str) (d : List (Str × JValue)) (g : Str)
    (h : dlookup d g = some sentinel) :
    dlookup (fs.foldl fillStep d) g = some sentinel := by
  induction fs generalizing d with
  | nil => exact h
  | cons f fs ih => exact ih _ (fillStep_keeps_sentinel d f g h)

theorem foldl_fills_sentinel (fs : List Str) (d : List (Str × JValue)) (g : Str)
    (hg : g ∈ fs)
    (h : dlookup d g = none ∨ ∃ w, dlookup d g = some w ∧ pyTruthy w = false) :
    dlookup (fs.foldl fillStep d) g = some sentinel := by
  induction fs generalizing d with
  | nil => cases hg
  | cons f fs ih =>
    by_cases hfg : f = g
    · subst hfg
      have hstep : dlookup (fillStep d f) f = some sentinel := by
        rcases h with hn | ⟨w, hw, hwf⟩
        · rw [fillStep_of_none d f hn]; exact dlookup_dictSet_self d f sentinel
        · rw [fillStep_of_some d f w hw, if_neg (by simp [hwf])]
          exact dlookup_dictSet_self d f sentinel
      exact foldl_keeps_sentinel fs _ f hstep
    · have hmem : g ∈ fs := by
        rcases List.mem_cons.mp hg with heq | hmem
        · exact absurd heq.symm hfg
        · exact hmem
      apply ih _ hmem
      cases hd : dlookup d f with
      | none =>
        rw [fillStep_of_none d f hd]
        rcases h with hn | ⟨w, hw, hwf⟩
        · exact Or.inl (by rw [dlookup_dictSet_ne _ _ _ _ hfg]; exact hn)
        · exact Or.inr ⟨w, by rw [dlookup_dictSet_ne _ _ _ _ hfg]; exact hw, hwf⟩
      | some u =>
        rw [fillStep_of_some d f u hd]
        by_cases hu : pyTruthy u = true
        · rw [if_pos hu]; exact h
        · rw [if_neg hu]
          rcases h with hn | ⟨w, hw, hwf⟩
          · exact Or.inl (by rw [dlookup_dictSet_ne _ _ _ _ hfg]; exact hn)
          · exact Or.inr ⟨w, by rw [dlookup_dictSet_ne _ _ _ _ hfg]; exact hw, hwf⟩

/-! ## Claim C1 -/

/-- C1: the claim says that on a JSON parse failure (including the empty
response after a model-call exception) `parse_resume` returns a record with
all twelve fields set to "Not specified" and never raises.  The code does
not: the `except` handler at app.py line 139 reads the local
`required_fields`, which is assigned only at line 125 after `json.loads`,
so on the parse-failure path the handler itself raises `UnboundLocalError`.
This theorem evaluates the embedded `parse_resume` at the failing input (a
model-call exception, giving the empty response): it raises instead of
returning the default record. -/
theorem C1_parse_failure_raises_unbound_local :
    parse_resume none = .error (PyErr.unboundLocalError "required_fields".data) := rfl

/-! ## Claim C2 -/

/-- C2: every record that `parse_resume` actually returns has all twelve
required keys present with Python-truthy (in particular non-empty) values,
and any required field that the model's JSON object left missing or falsy
has been replaced by the sentinel "Not specified".  (The parse-failure
branch returns no record at all — see C1 — so all returned records come
from the success branch.) -/
theorem C2_parsed_record_fields (modelCall : Option Str)
    (d : List (Str × JValue)) (h : parse_resume modelCall = .ok d) :
    ∀ f ∈ requiredFields,
      (∃ v, dlookup d f = some v ∧ pyTruthy v = true) ∧
      (∀ kvs, jsonLoads (modelResponse modelCall) = .ok (.obj kvs) →
        (dlookup kvs f = none ∨ ∃ w, dlookup kvs f = some w ∧ pyTruthy w = false) →
        dlookup d f = some sentinel) := by
  intro f hf
  cases hj : jsonLoads (modelResponse modelCall) with
  | error e => unfold parse_resume at h; rw [hj] at h; cases h
  | ok v =>
    unfold parse_resume at h; rw [hj] at h
    cases v with
    | obj kvs =>
      injection h with h
      subst h
      refine ⟨foldl_ok_of_mem requiredFields kvs f hf, ?_⟩
      intro kvs' hj' hmiss
      injection hj' with hj'
      injection hj' with hj'
      subst hj'
      exact foldl_fills_sentinel requiredFields kvs f hf hmiss
    | null => cases h
    | bool b => cases h
    | num n => cases h
    | str s => cases h
    | arr items => cases h

/-- Witness for C2: the model replied with the empty JSON object, the
success branch back-fills every field, and the returned record (the
all-sentinel record) has a truthy "Name" value. -/
theorem C2_witness :
    ∃ v, dlookup allSentinelRecord "Name".data = some v ∧ pyTruthy v = true :=
  (C2_parsed_record_fields (some "\x7b\x7d".data) allSentinelRecord rfl
    "Name".data (by decide)).1

/-! ## Claim C3 -/

/-- C3 counterexample: the claim says the Match Scorer's parse-failure
report has empty recommendations and an empty profile summary.  At the
concrete unparsable input (a model-call exception, giving the empty
response) `analyze_resume` returns the fallback object, whose
recommendations list is `["Error generating recommendations"]` and whose
profile summary is "Error analyzing profile" — not empty. -/
theorem C3_counterexample :
    analyze_resume none = .obj matchFallback ∧
    ¬ (dlookup matchFallback "recommendations".data = some (.arr []) ∧
       dlookup matchFallback "profile_summary".data = some (.str [])) := by
  refine ⟨rfl, ?_⟩
  intro h
  have h1 := h.1
  rw [show dlookup matchFallback "recommendations".data =
      some (.arr [.str "Error generating recommendations".data]) from rfl] at h1
  simp at h1

/-- C3 amended: whenever the scorer's post-processed response fails JSON
parsing, `analyze_resume` returns exactly the fallback report —
match_percentage 0, matching_keywords and missing_keywords empty, but
profile_summary "Error analyzing profile" and recommendations
["Error generating recommendations"] — and returns normally, so the run
is not aborted for that resume. -/
theorem C3_amended_fallback (modelCall : Option Str) (e : String)
    (h : jsonLoads (modelResponse modelCall) = .error e) :
    analyze_resume modelCall = .obj matchFallback := by
  unfold analyze_resume
  rw [h]

/-- Witness for C3's amended theorem: a model-call exception yields the
empty response, which fails JSON parsing. -/
theorem C3_witness : analyze_resume none = .obj matchFallback :=
  C3_amended_fallback none "Expecting value" rfl

/-! ## Claim C4 -/

theorem begins_self_append (p t : Str) : begins p (p ++ t) = true := by
  induction p with
  | nil => rfl
  | cons c cs ih => simp [begins, ih]

theorem stripFenced_fenced (s : Str) :
    stripFenced (fenceLit ++ (s ++ "```".data)) = s := by
  have hb : begins fenceLit (fenceLit ++ (s ++ "```".data)) = true :=
    begins_self_append _ _
  unfold stripFenced
  rw [if_pos hb]
  have h1 : (fenceLit ++ (s ++ "```".data)).drop 7 = s ++ "```".data := rfl
  have h2 : (fenceLit ++ (s ++ "```".data)).length - 10 = s.length := by
    rw [List.length_append, List.length_append]
    have e1 : fenceLit.length = 7 := rfl
    have e2 : ("```".data : Str).length = 3 := rfl
    rw [e1, e2]
    omega
  rw [h1, h2]
  exact List.take_left s _

/-- C4: wrapping any text `s` in the ```json fence and then running the
response post-processing of `parse_resume`/`analyze_resume` (strip, fence
test, Python slice `[7:-3]`) recovers `s` exactly, so JSON-parsing the
stripped response equals JSON-parsing `s` directly: the fence-stripping
step is a left inverse of fencing with respect to JSON parsing. -/
theorem C4_fence_strip_left_inverse (s : Str) :
    jsonLoads (stripFenced (pyStrip (fenceLit ++ (s ++ "```".data)))) =
      jsonLoads s := by
  have hp : pyStrip (fenceLit ++ (s ++ "```".data)) =
      fenceLit ++ (s ++ "```".data) := by
    unfold pyStrip
    have h1 : (fenceLit ++ (s ++ "```".data)).dropWhile isSpaceChar =
        fenceLit ++ (s ++ "```".data) := rfl
    have h2 : (fenceLit ++ (s ++ "```".data)).reverse.dropWhile isSpaceChar =
        (fenceLit ++ (s ++ "```".data)).reverse := by
      rw [List.reverse_append, List.reverse_append]
      rfl
    rw [h1, h2, List.reverse_reverse]
  rw [hp, stripFenced_fenced]

/-! ## Claim C5 -/

theorem foldl_append_eq_join (l : List Str) (acc : Str) :
    l.foldl (fun a p => a ++ p) acc = acc ++ l.flatten := by
  induction l generalizing acc with
  | nil => simp
  | cons x xs ih => simp [List.foldl_cons, ih, List.append_assoc]

theorem read_pdf_ok (pages : List Str) : read_pdf (Except.ok pages) = pages.flatten := by
  show pages.foldl (fun a p => a ++ p) [] = pages.flatten
  rw [foldl_append_eq_join]
  exact List.nil_append _

/-- C5: a document that opens yields the page texts concatenated in page
order; a page whose extraction yields nothing (the empty string)
contributes an empty segment, so dropping it leaves the result unchanged;
a fatal parse error is caught and yields the empty string. -/
theorem C5_read_pdf_concatenates (pages xs ys : List Str) (e : String) :
    read_pdf (Except.ok pages) = pages.flatten ∧
    read_pdf (Except.error e) = [] ∧
    read_pdf (Except.ok (xs ++ [] :: ys)) = read_pdf (Except.ok (xs ++ ys)) := by
  refine ⟨read_pdf_ok pages, rfl, ?_⟩
  rw [read_pdf_ok, read_pdf_ok]
  simp

/-! ## Claim C6 -/

/-- C6 counterexample: the claim says every match report's
match_percentage is interpretable as a number in 0-100.  With a parsable
model response whose match_percentage is 150, `analyze_resume` returns the
parsed object unchanged, so the value 150 — outside 0-100 — reaches the
caller. -/
theorem C6_counterexample :
    analyze_resume (some "\x7b\"match_percentage\": 150\x7d".data) =
      .obj [("match_percentage".data, .num 150)] ∧
    ¬ ((150 : Int) ≤ 100) :=
  ⟨rfl, by decide⟩

/-- C6 amended: on the failure branch match_percentage is exactly 0 (the
fallback report), but on the success branch `analyze_resume` passes the
parsed value through with no validation at all, so nothing constrains
match_percentage to 0-100 (it may even be absent or non-numeric). -/
theorem C6_amended_no_validation :
    (∀ modelCall e, jsonLoads (modelResponse modelCall) = .error e →
      analyze_resume modelCall = .obj matchFallback ∧
      dlookup matchFallback "match_percentage".data = some (.num 0)) ∧
    (∀ modelCall v, jsonLoads (modelResponse modelCall) = .ok v →
      analyze_resume modelCall = v) := by
  constructor
  · intro modelCall e h
    refine ⟨?_, rfl⟩
    unfold analyze_resume
    rw [h]
  · intro modelCall v h
    unfold analyze_resume
    rw [h]

/-- Witness for C6's amended theorem: the empty response exercises the
failure branch, a concrete parsable response the pass-through branch. -/
theorem C6_witness :
    analyze_resume none = .obj matchFallback ∧
    analyze_resume (some "\x7b\"match_percentage\": 42\x7d".data) =
      .obj [("match_percentage".data, .num 42)] :=
  ⟨(C6_amended_no_validation.1 none "Expecting value" rfl).1,
   C6_amended_no_validation.2 (some "\x7b\"match_percentage\": 42\x7d".data)
     (.obj [("match_percentage".data, .num 42)]) rfl⟩

/-! ## Claim C7 -/

theorem firstPatMatch_cons_some (p : Str) (ps : List Str) (link g : Str)
    (h : searchGroup p link = some g) : firstPatMatch (p :: ps) link = g := by
  unfold firstPatMatch; rw [h]

theorem firstPatMatch_cons_none (p : Str) (ps : List Str) (link : Str)
    (h : searchGroup p link = none) :
    firstPatMatch (p :: ps) link = firstPatMatch ps link := by
  show (match searchGroup p link with
    | some g => g
    | none => firstPatMatch ps link) = firstPatMatch ps link
  rw [h]

/-- C7: the file identifier comes from the ordered patterns `file/d/<id>`,
`id=<id>`, `open?id=<id>`, first match winning: the share link
"https://drive.google.com/file/d/XYZ789/view" yields a download of file id
"XYZ789"; a first-pattern match is taken regardless of the others; the
later patterns are consulted only when the earlier ones fail; and a line
matching no pattern is skipped — no download attempted (and the loop body
reports errors only inside the download branch). -/
theorem C7_file_link_patterns :
    linkAction "https://drive.google.com/file/d/XYZ789/view".data =
      .download "XYZ789".data ∧
    (∀ link g, searchGroup "file/d/".data (pyStrip link) = some g →
      firstPatMatch filePats (pyStrip link) = g) ∧
    (∀ link g, searchGroup "file/d/".data (pyStrip link) = none →
      searchGroup "id=".data (pyStrip link) = some g →
      firstPatMatch filePats (pyStrip link) = g) ∧
    (∀ link g, searchGroup "file/d/".data (pyStrip link) = none →
      searchGroup "id=".data (pyStrip link) = none →
      searchGroup "open?id=".data (pyStrip link) = some g →
      firstPatMatch filePats (pyStrip link) = g) ∧
    (∀ link, (∀ p ∈ filePats, searchGroup p (pyStrip link) = none) →
      linkAction link = .skipped) := by
  refine ⟨rfl, ?_, ?_, ?_, ?_⟩
  · intro link g h
    exact firstPatMatch_cons_some _ _ _ _ h
  · intro link g h1 h2
    show firstPatMatch ("file/d/".data :: ["id=".data, "open?id=".data])
      (pyStrip link) = g
    rw [firstPatMatch_cons_none _ _ _ h1]
    exact firstPatMatch_cons_some _ _ _ _ h2
  · intro link g h1 h2 h3
    show firstPatMatch ("file/d/".data :: ["id=".data, "open?id=".data])
      (pyStrip link) = g
    rw [firstPatMatch_cons_none _ _ _ h1, firstPatMatch_cons_none _ _ _ h2]
    exact firstPatMatch_cons_some _ _ _ _ h3
  · intro link hall
    have h1 := hall "file/d/".data (by simp [filePats])
    have h2 := hall "id=".data (by simp [filePats])
    have h3 := hall "open?id=".data (by simp [filePats])
    have hempty : firstPatMatch filePats (pyStrip link) = [] := by
      show firstPatMatch ("file/d/".data :: ["id=".data, "open?id=".data])
        (pyStrip link) = []
      rw [firstPatMatch_cons_none _ _ _ h1, firstPatMatch_cons_none _ _ _ h2,
        firstPatMatch_cons_none _ _ _ h3]
      rfl
    unfold linkAction
    rw [hempty]
    rfl

/-- Witness for C7: a link matched by the first pattern, and a line
matching no pattern that is skipped. -/
theorem C7_witness :
    firstPatMatch filePats (pyStrip "x file/d/abc".data) = "abc".data ∧
    linkAction "hello".data = .skipped := by
  constructor
  · exact C7_file_link_patterns.2.1 "x file/d/abc".data "abc".data rfl
  · apply C7_file_link_patterns.2.2.2.2
    intro p hp
    simp [filePats] at hp
    rcases hp with rfl | rfl | rfl <;> rfl

/-! ## Claim C8 -/

theorem begins_exists_of_true (p : Str) : ∀ s, begins p s = true → ∃ t, s = p ++ t := by
  induction p with
  | nil => exact fun s _ => ⟨s, rfl⟩
  | cons c cs ih =>
    intro s h
    cases s with
    | nil => cases h
    | cons d ds =>
      simp only [begins, Bool.and_eq_true, beq_iff_eq] at h
      obtain ⟨rfl, h2⟩ := h
      obtain ⟨t, rfl⟩ := ih ds h2
      exact ⟨t, rfl⟩

theorem matchAt_some_decomp (lit s g : Str) (h : matchAt lit s = some g) :
    ∃ c rest, s = lit ++ c :: rest ∧ idChar c = true := by
  unfold matchAt at h
  by_cases hb : begins lit s = true
  · rw [if_pos hb] at h
    obtain ⟨t, rfl⟩ := begins_exists_of_true lit s hb
    rw [List.drop_left] at h
    cases t with
    | nil => exact Option.noConfusion h
    | cons c rest =>
      have h' : (if idChar c = true
          then some ((c :: rest).takeWhile idChar) else none) = some g := h
      by_cases hc : idChar c = true
      · exact ⟨c, rest, rfl, hc⟩
      · rw [if_neg hc] at h'
        exact Option.noConfusion h'
  · rw [if_neg hb] at h
    exact Option.noConfusion h

theorem searchGroup_of_matchAt (lit s g : Str) (h : matchAt lit s = some g) :
    searchGroup lit s = some g := by
  cases s with
  | nil =>
    exfalso
    unfold matchAt at h
    by_cases hb : begins lit ([] : Str) = true
    · rw [if_pos hb, List.drop_nil] at h
      exact Option.noConfusion h
    · rw [if_neg hb] at h
      exact Option.noConfusion h
  | cons d ds =>
    unfold searchGroup
    rw [h]

theorem searchGroup_some_hasIdSegment (lit : Str) :
    ∀ s g, searchGroup lit s = some g → hasIdSegment lit s := by
  intro s
  induction s with
  | nil => intro g h; exact Option.noConfusion h
  | cons c cs ih =>
    intro g h
    cases hm : matchAt lit (c :: cs) with
    | some g' =>
      obtain ⟨c', rest, hdec, hc⟩ := matchAt_some_decomp lit (c :: cs) g' hm
      exact ⟨[], c', rest, hdec, hc⟩
    | none =>
      have h' : searchGroup lit cs = some g := by
        unfold searchGroup at h
        rw [hm] at h
        exact h
      obtain ⟨pre, c', rest, hdec, hc⟩ := ih g h'
      exact ⟨c :: pre, c', rest, by rw [List.cons_append, hdec], hc⟩

theorem hasIdSegment_searchGroup_some (lit s : Str) (h : hasIdSegment lit s) :
    ∃ g, searchGroup lit s = some g := by
  obtain ⟨pre, c, rest, hdec, hc⟩ := h
  subst hdec
  induction pre with
  | nil =>
    have hm : matchAt lit (lit ++ c :: rest) =
        some ((c :: rest).takeWhile idChar) := by
      unfold matchAt
      rw [if_pos (begins_self_append lit (c :: rest)), List.drop_left]
      show (if idChar c = true
        then some ((c :: rest).takeWhile idChar) else none) = _
      rw [if_pos hc]
    exact ⟨_, searchGroup_of_matchAt _ _ _ hm⟩
  | cons p pre ih =>
    cases hm : matchAt lit (p :: (pre ++ (lit ++ c :: rest))) with
    | some g => exact ⟨g, searchGroup_of_matchAt _ _ _ hm⟩
    | none =>
      obtain ⟨g, hg⟩ := ih
      refine ⟨g, ?_⟩
      show searchGroup lit (p :: (pre ++ (lit ++ c :: rest))) = some g
      unfold searchGroup
      rw [hm]
      exact hg

/-- C8: `extract_folder_id` maps the example folder link to "ABC123"; any
string not containing a `drive/folders/<id>` segment maps to the empty
string; and on such a (non-blank) link the caller's folder branch takes
the "unable to parse" warning path, which returns before
`get_drive_service()` — so before any remote call. -/
theorem C8_folder_link_parsing :
    extract_folder_id "https://drive.google.com/drive/folders/ABC123".data =
      "ABC123".data ∧
    (∀ s, ¬ hasIdSegment folderPat s → extract_folder_id s = []) ∧
    (∀ link, ¬ hasIdSegment folderPat (pyStrip link) → pyStrip link ≠ [] →
      folderBranch link = .warnUnparseable) := by
  have hgen : ∀ s, ¬ hasIdSegment folderPat s → extract_folder_id s = [] := by
    intro s h
    cases hs : searchGroup folderPat s with
    | none => unfold extract_folder_id; rw [hs]
    | some g => exact absurd (searchGroup_some_hasIdSegment folderPat s g hs) h
  refine ⟨rfl, hgen, ?_⟩
  intro link h hne
  have hid := hgen _ h
  have h1 : ¬ ((pyStrip link).isEmpty = true) := by simpa using hne
  unfold folderBranch
  rw [if_neg h1, hid]
  rfl

/-- Witness for C8: the string "hello" contains no folder segment, parses
to the empty id, and sends the folder branch down the warning path. -/
theorem C8_witness :
    extract_folder_id "hello".data = [] ∧
    folderBranch "hello".data = .warnUnparseable := by
  have hno : ¬ hasIdSegment folderPat "hello".data := by
    intro hc
    obtain ⟨g, hg⟩ := hasIdSegment_searchGroup_some folderPat "hello".data hc
    rw [show searchGroup folderPat "hello".data = none from rfl] at hg
    exact Option.noConfusion hg
  exact ⟨C8_folder_link_parsing.2.1 "hello".data hno,
    C8_folder_link_parsing.2.2 "hello".data hno (by decide)⟩

/-! ## Claim C9 -/

/-- C9: when the result table has more than one row, the displayed metrics
are the row count, the mean of the match-percentage column after coercing
non-numeric or missing entries to NaN and excluding them (0 when every
entry is excluded), and the maximum of that column under the same coercion
and the same default-to-0 rule — also when the column is absent from the
DataFrame altogether. -/
theorem C9_summary_metrics (rows : List MatchCell) (h : rows.length > 1) :
    summaryMetrics rows =
      some (Metrics.mk rows.length (claimMean rows) (claimMax rows)) := by
  unfold summaryMetrics
  rw [if_pos h]
  by_cases hk : rows.any cellKeyPresent = true
  · rw [if_pos hk]
    have hm : (colMean (rows.map coerceCell)).getD 0 = claimMean rows := by
      unfold colMean claimMean
      by_cases he : ((rows.map coerceCell).filterMap id).isEmpty = true
      · rw [if_pos he, if_pos he]; rfl
      · rw [if_neg he, if_neg he]; rfl
    have hx : (colMax (rows.map coerceCell)).getD 0 = claimMax rows := by
      unfold colMax claimMax
      cases hcol : (rows.map coerceCell).filterMap id with
      | nil => rfl
      | cons x xs => rfl
    rw [hm, hx]
  · rw [if_neg hk]
    have hall : ∀ c ∈ rows, coerceCell c = none := by
      intro c hc
      have hnp : ¬ (cellKeyPresent c = true) :=
        fun hcp => hk (List.any_eq_true.mpr ⟨c, hc, hcp⟩)
      cases c with
      | absent => rfl
      | numeric q => exact absurd rfl hnp
      | nonNumeric => exact absurd rfl hnp
    have hnil : (rows.map coerceCell).filterMap id = [] := by
      rw [List.filterMap_map]
      exact List.filterMap_eq_nil_iff.mpr (fun a ha => hall a ha)
    unfold claimMean claimMax
    rw [hnil]
    rfl

/-- Witness for C9: a two-row table with one numeric and one non-numeric
match entry. -/
theorem C9_witness :
    [MatchCell.numeric 80, MatchCell.nonNumeric].length > 1 ∧
    summaryMetrics [MatchCell.numeric 80, MatchCell.nonNumeric] =
      some (Metrics.mk
        [MatchCell.numeric 80, MatchCell.nonNumeric].length
        (claimMean [MatchCell.numeric 80, MatchCell.nonNumeric])
        (claimMax [MatchCell.numeric 80, MatchCell.nonNumeric])) :=
  ⟨by decide, C9_summary_metrics _ (by decide)⟩

/-! ## Claim C10 -/

/-- C10: whenever the match-field merge of `main` produces a result row,
the row contains all four of JDMatchPercentage, MatchingKeywords,
MissingKeywords and Recommendations; and each key the scorer's parsed
object lacks is filled from the `analysis.get` default — 0 for the
percentage and the empty (joined) string for the three text fields. -/
theorem C10_match_fields_always_present
    (parsed analysis row : List (Str × JValue))
    (h : mergeMatchFields parsed analysis = .ok row) :
    ((∃ v, dlookup row "JDMatchPercentage".data = some v) ∧
     (∃ v, dlookup row "MatchingKeywords".data = some v) ∧
     (∃ v, dlookup row "MissingKeywords".data = some v) ∧
     (∃ v, dlookup row "Recommendations".data = some v)) ∧
    (dlookup analysis "match_percentage".data = none →
      dlookup row "JDMatchPercentage".data = some (.num 0)) ∧
    (dlookup analysis "matching_keywords".data = none →
      dlookup row "MatchingKeywords".data = some (.str [])) ∧
    (dlookup analysis "missing_keywords".data = none →
      dlookup row "MissingKeywords".data = some (.str [])) ∧
    (dlookup analysis "recommendations".data = none →
      dlookup row "Recommendations".data = some (.str [])) := by
  unfold mergeMatchFields at h
  cases hmk : pyJoin ", ".data (pyGet analysis "matching_keywords".data (.arr [])) with
  | error e => rw [hmk] at h; exact Except.noConfusion h
  | ok mk =>
    rw [hmk] at h
    cases hms : pyJoin ", ".data (pyGet analysis "missing_keywords".data (.arr [])) with
    | error e => rw [hms] at h; exact Except.noConfusion h
    | ok ms =>
      rw [hms] at h
      cases hrc : pyJoin "\n".data (pyGet analysis "recommendations".data (.arr [])) with
      | error e => rw [hrc] at h; exact Except.noConfusion h
      | ok rc =>
        rw [hrc] at h
        injection h with h
        subst h
        have l1 : dlookup (dictSet (dictSet (dictSet (dictSet parsed
            "JDMatchPercentage".data (pyGet analysis "match_percentage".data (.num 0)))
            "MatchingKeywords".data (.str mk))
            "MissingKeywords".data (.str ms))
            "Recommendations".data (.str rc)) "JDMatchPercentage".data =
            some (pyGet analysis "match_percentage".data (.num 0)) := by
          rw [dlookup_dictSet_ne _ _ _ _ (by decide),
            dlookup_dictSet_ne _ _ _ _ (by decide),
            dlookup_dictSet_ne _ _ _ _ (by decide), dlookup_dictSet_self]
        have l2 : dlookup (dictSet (dictSet (dictSet (dictSet parsed
            "JDMatchPercentage".data (pyGet analysis "match_percentage".data (.num 0)))
            "MatchingKeywords".data (.str mk))
            "MissingKeywords".data (.str ms))
            "Recommendations".data (.str rc)) "MatchingKeywords".data =
            some (.str mk) := by
          rw [dlookup_dictSet_ne _ _ _ _ (by decide),
            dlookup_dictSet_ne _ _ _ _ (by decide), dlookup_dictSet_self]
        have l3 : dlookup (dictSet (dictSet (dictSet (dictSet parsed
            "JDMatchPercentage".data (pyGet analysis "match_percentage".data (.num 0)))
            "MatchingKeywords".data (.str mk))
            "MissingKeywords".data (.str ms))
            "Recommendations".data (.str rc)) "MissingKeywords".data =
            some (.str ms) := by
          rw [dlookup_dictSet_ne _ _ _ _ (by decide), dlookup_dictSet_self]
        have l4 : dlookup (dictSet (dictSet (dictSet (dictSet parsed
            "JDMatchPercentage".data (pyGet analysis "match_percentage".data (.num 0)))
            "MatchingKeywords".data (.str mk))
            "MissingKeywords".data (.str ms))
            "Recommendations".data (.str rc)) "Recommendations".data =
            some (.str rc) :=
          dlookup_dictSet_self _ _ _
        refine ⟨⟨⟨_, l1⟩, ⟨_, l2⟩, ⟨_, l3⟩, ⟨_, l4⟩⟩, ?_, ?_, ?_, ?_⟩
        · intro hnone
          rw [l1]
          unfold pyGet
          rw [hnone]
          rfl
        · intro hnone
          have hget : pyGet analysis "matching_keywords".data (.arr []) =
              JValue.arr [] := by
            unfold pyGet; rw [hnone]; rfl
          rw [hget] at hmk
          injection hmk with hmk
          subst hmk
          exact l2
        · intro hnone
          have hget : pyGet analysis "missing_keywords".data (.arr []) =
              JValue.arr [] := by
            unfold pyGet; rw [hnone]; rfl
          rw [hget] at hms
          injection hms with hms
          subst hms
          exact l3
        · intro hnone
          have hget : pyGet analysis "recommendations".data (.arr []) =
              JValue.arr [] := by
            unfold pyGet; rw [hnone]; rfl
          rw [hget] at hrc
          injection hrc with hrc
          subst hrc
          exact l4

/-- Witness for C10: with an empty scorer object every key is missing, the
merge succeeds, and all four defaults appear in the row. -/
theorem C10_witness :
    dlookup [("JDMatchPercentage".data, JValue.num 0),
      ("MatchingKeywords".data, JValue.str []),
      ("MissingKeywords".data, JValue.str []),
      ("Recommendations".data, JValue.str [])] "JDMatchPercentage".data =
      some (JValue.num 0) ∧
    dlookup [("JDMatchPercentage".data, JValue.num 0),
      ("MatchingKeywords".data, JValue.str []),
      ("MissingKeywords".data, JValue.str []),
      ("Recommendations".data, JValue.str [])] "Recommendations".data =
      some (JValue.str []) :=
  ⟨(C10_match_fields_always_present [] [] _ rfl).2.1 rfl,
   (C10_match_fields_always_present [] [] _ rfl).2.2.2.2 rfl⟩

end ResumeAnalyzer
